import Mathlib

/-!
Shallow embedding of `src/main.py` (MathMaster_Pro record store).

The program is a FastMCP server over a SQLite database with three tables
(`students`, `test_results`, `fee_records`).  Each MCP tool opens a fresh
`aiosqlite` connection, runs one or two SQL statements, commits, and returns a
Python dict.  We embed:

* the database state as three optional tables (a table is `none` before
  `CREATE TABLE IF NOT EXISTS` has run, `some rows` afterwards) plus the
  AUTOINCREMENT counters;
* SQLite's per-connection foreign-key switch: `PRAGMA foreign_keys = ON` only
  affects the connection that issues it.  `init_db` issues it on its own
  synchronous connection (src/main.py line 187) and then closes that
  connection; the tool connections opened by `aiosqlite.connect` never issue
  the pragma, so they run with SQLite's default (enforcement off).  Statements
  that depend on the switch (`DELETE` cascade, FK checks on `INSERT`) take the
  issuing connection's flag as an explicit argument;
* storage-layer faults as an `Option String` injected at connection time: the
  Python `try`/`except Exception` wrapper of every tool catches the fault and
  turns it into `{"status": "error", "message": str(e)}`, while `init_db`
  logs and re-raises;
* SQLite `REAL` values as `ℚ` (every numeric literal in the claims is dyadic);
* Python dict return values as association lists of string keys to values,
  where a value is a scalar, a row (dict of scalars), or a list of rows,
  mirroring the exact shapes the five tools return.
-/

/-- A scalar value appearing in a returned mapping or a table row. -/
inductive Value where
  | str : String → Value
  | int : Int → Value
  | num : ℚ → Value
deriving DecidableEq, Repr

/-- A value of a returned mapping: a scalar, a row rendered by `dict(row)`,
or a list of rows (`[dict(row) for row in ...]`). -/
inductive Entry where
  | val : Value → Entry
  | row : List (String × Value) → Entry
  | rows : List (List (String × Value)) → Entry
deriving DecidableEq, Repr

/-- The result a tool returns to the MCP layer: a Python dict, embedded as an
association list in insertion order. -/
abbrev MCPResult := List (String × Entry)

/-- A row of the `students` table (id, name, grade, monthly_fee, joined_date). -/
structure StudentRow where
  id : Int
  name : String
  grade : String
  monthly_fee : ℚ
  joined_date : String
deriving DecidableEq, Repr

/-- A row of the `test_results` table. -/
structure TestRow where
  id : Int
  student_id : Int
  test_date : String
  topic : String
  marks_obtained : ℚ
  total_marks : ℚ
deriving DecidableEq, Repr

/-- A row of the `fee_records` table. -/
structure FeeRow where
  id : Int
  student_id : Int
  amount : ℚ
  payment_date : String
  month_covered : String
deriving DecidableEq, Repr

/-- The persistent database file: three optional tables (a table is `none`
until `CREATE TABLE IF NOT EXISTS` has created it) and the AUTOINCREMENT
counters that produce `lastrowid`. -/
structure DB where
  students : Option (List StudentRow)
  test_results : Option (List TestRow)
  fee_records : Option (List FeeRow)
  nextStudentId : Int
  nextTestId : Int
  nextFeeId : Int
deriving DecidableEq, Repr

/-- A calendar date, input of `datetime.now().strftime("%Y-%m-%d")`. -/
structure Date where
  year : Nat
  month : Nat
  day : Nat
deriving DecidableEq, Repr

/-- The decimal digit character of `n % 10`. -/
def digitChar10 (n : Nat) : Char :=
  if n % 10 = 0 then '0' else if n % 10 = 1 then '1' else if n % 10 = 2 then '2'
  else if n % 10 = 3 then '3' else if n % 10 = 4 then '4' else if n % 10 = 5 then '5'
  else if n % 10 = 6 then '6' else if n % 10 = 7 then '7' else if n % 10 = 8 then '8'
  else '9'

/-- The character list rendered by `strftime("%Y-%m-%d")`: four year digits,
a dash, two month digits, a dash, two day digits (zero-padded). -/
def strftimeYmdChars (d : Date) : List Char :=
  [digitChar10 (d.year / 1000), digitChar10 (d.year / 100),
   digitChar10 (d.year / 10), digitChar10 d.year, '-',
   digitChar10 (d.month / 10), digitChar10 d.month, '-',
   digitChar10 (d.day / 10), digitChar10 d.day]

/-- `datetime.now().strftime("%Y-%m-%d")` for a given current date. -/
def strftimeYmd (d : Date) : String :=
  String.mk (strftimeYmdChars d)

/-- Whether a character list has the ISO-8601 date shape `YYYY-MM-DD`. -/
def isoDateChars : List Char → Bool
  | [y1, y2, y3, y4, h1, m1, m2, h2, d1, d2] =>
      y1.isDigit && y2.isDigit && y3.isDigit && y4.isDigit && (h1 == '-') &&
      m1.isDigit && m2.isDigit && (h2 == '-') && d1.isDigit && d2.isDigit
  | _ => false

/-- Whether a string has the ISO-8601 date shape `YYYY-MM-DD`. -/
def isIsoDate (s : String) : Bool :=
  isoDateChars s.data

/-- Python truthiness of the `date` parameter: `date if date else
datetime.now().strftime("%Y-%m-%d")` — both `None` and `""` are falsy. -/
def pyDateDefault (date : Option String) (now : Date) : String :=
  match date with
  | some d => if d.isEmpty then strftimeYmd now else d
  | none => strftimeYmd now

/-- `dict(row)` for a `students` row, in `SELECT *` column order. -/
def studentDict (s : StudentRow) : List (String × Value) :=
  [("id", .int s.id), ("name", .str s.name), ("grade", .str s.grade),
   ("monthly_fee", .num s.monthly_fee), ("joined_date", .str s.joined_date)]

/-- `dict(row)` for a `test_results` row, in `SELECT *` column order. -/
def testDict (t : TestRow) : List (String × Value) :=
  [("id", .int t.id), ("student_id", .int t.student_id),
   ("test_date", .str t.test_date), ("topic", .str t.topic),
   ("marks_obtained", .num t.marks_obtained), ("total_marks", .num t.total_marks)]

/-- `dict(row)` for a `fee_records` row, in `SELECT *` column order. -/
def feeDict (f : FeeRow) : List (String × Value) :=
  [("id", .int f.id), ("student_id", .int f.student_id),
   ("amount", .num f.amount), ("payment_date", .str f.payment_date),
   ("month_covered", .str f.month_covered)]

/-- The `{"status": "error", "message": str(e)}` result every tool's
`except` clause returns. -/
def errorResult (msg : String) : MCPResult :=
  [("status", .val (.str "error")), ("message", .val (.str msg))]

/-- The `{"status": "success", "student_id": cursor.lastrowid}` result of
`add_student`. -/
def addSuccess (rowid : Int) : MCPResult :=
  [("status", .val (.str "success")), ("student_id", .val (.int rowid))]

/-- A `{"status": "success", "message": ...}` result. -/
def msgSuccess (msg : String) : MCPResult :=
  [("status", .val (.str "success")), ("message", .val (.str msg))]

/-- The `{"profile": dict(profile), "academic_history": tests}` result of
`get_student_report`. -/
def reportResult (profile : StudentRow) (tests : List TestRow) : MCPResult :=
  [("profile", .row (studentDict profile)),
   ("academic_history", .rows (tests.map testDict))]

/-- Opening a connection to the database file; a storage-layer fault raised
by the driver surfaces as an exception, embedded as `Except.error`. -/
def connectE (fault : Option String) : Except String Unit :=
  match fault with
  | some e => Except.error e
  | none => Except.ok ()

/-- Access a table; a statement that touches a table that was never created
raises `sqlite3.OperationalError: no such table: ...`. -/
def getTable {α : Type} (table : Option (List α)) (msg : String) :
    Except String (List α) :=
  match table with
  | none => Except.error msg
  | some rows => Except.ok rows

/-- The `try ... except Exception as e: return {"status": "error",
"message": str(e)}` wrapper shared by all four tools.  A fault leaves the
persistent state as it was (no statement of the failed operation committed). -/
def tryTool (db : DB) (body : Except String (MCPResult × DB)) : MCPResult × DB :=
  match body with
  | Except.ok r => r
  | Except.error e => (errorResult e, db)

/-- `DELETE FROM students WHERE id = ?` issued on a connection whose
foreign-key switch is `fk`.  SQLite runs the declared `ON DELETE CASCADE`
of `test_results` and `fee_records` only when the issuing connection has
foreign-key enforcement on; with the default (off) the child rows stay. -/
def deleteStudentRows (fk : Bool) (db : DB) (sid : Int) : DB :=
  let db' := { db with students := db.students.map (·.filter (fun r => !(r.id == sid))) }
  if fk then
    { db' with
      test_results := db'.test_results.map (·.filter (fun t => !(t.student_id == sid)))
      fee_records := db'.fee_records.map (·.filter (fun f => !(f.student_id == sid))) }
  else db'

/-- The three `CREATE TABLE IF NOT EXISTS` statements: an absent table is
created empty, an existing one keeps its rows. -/
def createTables (db : DB) : DB :=
  { db with
    students := some (db.students.getD [])
    test_results := some (db.test_results.getD [])
    fee_records := some (db.fee_records.getD []) }

/-- `init_db` (src/main.py lines 181-229): on its own synchronous connection,
set WAL journaling and `PRAGMA foreign_keys = ON` (both statements scoped to
that connection — the pragma does not outlive it), then `CREATE TABLE IF NOT
EXISTS` for the three tables, keeping existing rows, and commit.  Any failure
is logged and re-raised (`raise`), aborting module load. -/
def init_db (fault : Option String) (db : DB) : Except String DB :=
  match fault with
  | some e => Except.error e
  | none => Except.ok (createTables db)

/-- `init_db` called `n` times in sequence, stopping at the first failure. -/
def init_times : Nat → DB → Except String DB
  | 0, db => Except.ok db
  | n + 1, db =>
      match init_db none db with
      | Except.error e => Except.error e
      | Except.ok db' => init_times n db'

/-- `add_student` (src/main.py lines 236-248): insert a row with the given
name, grade and monthly_fee; `joined_date` takes its SQL column default
`CURRENT_DATE`, passed here as `today`.  Returns the generated rowid. -/
def add_student (fault : Option String) (today : String) (db : DB)
    (name grade : String) (monthly_fee : ℚ) : MCPResult × DB :=
  tryTool db (do
    connectE fault
    let ss ← getTable db.students "no such table: students"
    let rowid := db.nextStudentId
    let r : StudentRow :=
      { id := rowid, name := name, grade := grade,
        monthly_fee := monthly_fee, joined_date := today }
    Except.ok (addSuccess rowid,
      { db with students := some (ss ++ [r]), nextStudentId := rowid + 1 }))

/-- `delete_student` (src/main.py lines 250-264): `SELECT name FROM students
WHERE id = ?`; if no row, return the not-found error result; otherwise
`DELETE FROM students WHERE id = ?` and commit.  The aiosqlite connection
never issues `PRAGMA foreign_keys = ON`, so the delete runs with the
per-connection default `fk = false`. -/
def delete_student (fault : Option String) (db : DB) (student_id : Int) :
    MCPResult × DB :=
  tryTool db (do
    connectE fault
    let ss ← getTable db.students "no such table: students"
    match ss.find? (fun r => r.id == student_id) with
    | none =>
        Except.ok (errorResult ("Student ID " ++ toString student_id ++ " not found."), db)
    | some r =>
        Except.ok (msgSuccess ("Student " ++ r.name ++ " and all records deleted."),
          deleteStudentRows false db student_id))

/-- `record_test_score` with the issuing connection's foreign-key switch made
explicit.  The date defaults per Python truthiness before the `try` block;
the `INSERT INTO test_results ...` checks the parent row only when `fk` is
on, failing then with SQLite's `FOREIGN KEY constraint failed`. -/
def record_test_score_with_fk (fk : Bool) (fault : Option String) (now : Date)
    (db : DB) (student_id : Int) (topic : String) (marks total : ℚ)
    (date : Option String) : MCPResult × DB :=
  let test_date := pyDateDefault date now
  tryTool db (do
    connectE fault
    let ts ← getTable db.test_results "no such table: test_results"
    if fk then
      let ss ← getTable db.students "no such table: students"
      if ss.all (fun r => !(r.id == student_id)) then
        Except.error "FOREIGN KEY constraint failed"
      else Except.ok ()
    else Except.ok ()
    let rowid := db.nextTestId
    let t : TestRow :=
      { id := rowid, student_id := student_id, test_date := test_date,
        topic := topic, marks_obtained := marks, total_marks := total }
    Except.ok (msgSuccess ("Recorded score for " ++ topic ++ "."),
      { db with test_results := some (ts ++ [t]), nextTestId := rowid + 1 }))

/-- `record_test_score` (src/main.py lines 266-279): the aiosqlite connection
leaves foreign-key enforcement at SQLite's per-connection default (off). -/
def record_test_score (fault : Option String) (now : Date) (db : DB)
    (student_id : Int) (topic : String) (marks total : ℚ)
    (date : Option String) : MCPResult × DB :=
  record_test_score_with_fk false fault now db student_id topic marks total date

/-- `get_student_report` (src/main.py lines 281-296): fetch the profile row
(`SELECT * FROM students WHERE id = ?`), return the not-found error result if
absent; otherwise fetch `SELECT * FROM test_results WHERE student_id = ?` (in
table order, no ORDER BY) and return profile plus academic history.  No query
of `fee_records` is made. -/
def get_student_report (fault : Option String) (db : DB) (student_id : Int) :
    MCPResult × DB :=
  tryTool db (do
    connectE fault
    let ss ← getTable db.students "no such table: students"
    match ss.find? (fun r => r.id == student_id) with
    | none => Except.ok (errorResult "Student not found", db)
    | some profile =>
        let ts ← getTable db.test_results "no such table: test_results"
        Except.ok (reportResult profile (ts.filter (fun t => t.student_id == student_id)), db))

/-- Modelled from the spec: `record_ledger_entry` (spec §4.1) is absent from
src/main.py; the spec gives it the same contract shape as `record_event`,
inserting a `fee_records` row with the date defaulting to today. -/
def record_ledger_entry (fault : Option String) (now : Date) (db : DB)
    (student_id : Int) (amount : ℚ) (period_label : String)
    (date : Option String) : MCPResult × DB :=
  let payment_date := pyDateDefault date now
  tryTool db (do
    connectE fault
    let fs ← getTable db.fee_records "no such table: fee_records"
    let rowid := db.nextFeeId
    let f : FeeRow :=
      { id := rowid, student_id := student_id, amount := amount,
        payment_date := payment_date, month_covered := period_label }
    Except.ok (msgSuccess ("Recorded payment for " ++ period_label ++ "."),
      { db with fee_records := some (fs ++ [f]), nextFeeId := rowid + 1 }))

/-- Modelled from the spec: `aggregate_stats` (spec §4.1) is absent from
src/main.py; the spec has it return the full-table registrant count and the
sum of all ledger amounts, with the total defaulting to 0.0 (never null)
when no ledger rows exist. -/
def aggregate_stats (fault : Option String) (db : DB) : MCPResult × DB :=
  tryTool db (do
    connectE fault
    let ss ← getTable db.students "no such table: students"
    let fs ← getTable db.fee_records "no such table: fee_records"
    let total : ℚ := (fs.map (·.amount)).sum
    Except.ok ([("registrant_count", .val (.int ss.length)),
      ("total_ledger_amount", .val (.num total))], db))

/-! ### Concrete database fixtures -/

/-- Ada's `students` row. -/
def adaRow : StudentRow :=
  { id := 1, name := "Ada", grade := "Grade 9", monthly_fee := 150,
    joined_date := "2026-01-05" }

/-- A `test_results` row belonging to Ada. -/
def adaTest : TestRow :=
  { id := 1, student_id := 1, test_date := "2026-02-01", topic := "Algebra",
    marks_obtained := 8, total_marks := 10 }

/-- A `fee_records` row belonging to Ada. -/
def adaFee : FeeRow :=
  { id := 1, student_id := 1, amount := 150, payment_date := "2026-02-02",
    month_covered := "February" }

/-- A database with one registrant (Ada, id 1), one event and one ledger
entry, both hers. -/
def dbAda : DB :=
  { students := some [adaRow], test_results := some [adaTest],
    fee_records := some [adaFee],
    nextStudentId := 2, nextTestId := 2, nextFeeId := 2 }

/-- An earlier-dated test row, inserted first. -/
def c2Test1 : TestRow :=
  { id := 1, student_id := 1, test_date := "2026-01-01", topic := "Algebra",
    marks_obtained := 7, total_marks := 10 }

/-- A later-dated test row, inserted second. -/
def c2Test2 : TestRow :=
  { id := 2, student_id := 1, test_date := "2026-02-01", topic := "Geometry",
    marks_obtained := 9, total_marks := 10 }

/-- A database where Ada has two events in ascending date order and one
ledger entry. -/
def dbC2 : DB :=
  { students := some [adaRow], test_results := some [c2Test1, c2Test2],
    fee_records := some [adaFee],
    nextStudentId := 2, nextTestId := 3, nextFeeId := 2 }

/-- A freshly initialized, empty database. -/
def emptyReadyDB : DB :=
  { students := some [], test_results := some [], fee_records := some [],
    nextStudentId := 1, nextTestId := 1, nextFeeId := 1 }

/-! ### Observations on returned mappings, used to state the spec's claims -/

/-- The list-of-rows valued entries of a returned mapping (key and rows). -/
def rowListEntries (r : MCPResult) : List (String × List (List (String × Value))) :=
  r.filterMap (fun kv =>
    match kv.2 with
    | Entry.rows l => some (kv.1, l)
    | _ => none)

/-- Lexicographic strict order on character lists (the order SQLite's
`ORDER BY` gives ASCII date strings). -/
def charsLt : List Char → List Char → Bool
  | [], [] => false
  | [], _ :: _ => true
  | _ :: _, [] => false
  | a :: as, b :: bs =>
      if a.toNat < b.toNat then true
      else if b.toNat < a.toNat then false
      else charsLt as bs

/-- Descending comparison on (date, insertion id): date descending, ties
broken by insertion order descending. -/
def dateIdDesc (x y : String × Int) : Bool :=
  if x.1 == y.1 then decide (y.2 ≤ x.2) else charsLt y.1.data x.1.data

/-- Insert into a list already sorted descending by `key`. -/
def insertByDesc {α : Type} (key : α → String × Int) (x : α) :
    List α → List α
  | [] => [x]
  | y :: ys =>
      if dateIdDesc (key x) (key y) then x :: y :: ys
      else y :: insertByDesc key x ys

/-- Sort descending by `key` (date descending, ties by id descending). -/
def sortByDesc {α : Type} (key : α → String × Int) : List α → List α
  | [] => []
  | x :: xs => insertByDesc key x (sortByDesc key xs)

/-- Following the spec's words (the statement under refutation for C2): the
detail result for registrant `sid` carries, among its list-valued components,
the registrant's events sorted by date descending (ties by insertion order
descending) and likewise its ledger entries. -/
def specDetailClaimAt (db : DB) (sid : Int) : Prop :=
  ((sortByDesc (fun t => (t.test_date, t.id))
      ((db.test_results.getD []).filter (fun t => t.student_id == sid))).map testDict)
    ∈ (rowListEntries (get_student_report none db sid).fst).map Prod.snd ∧
  ((sortByDesc (fun f => (f.payment_date, f.id))
      ((db.fee_records.getD []).filter (fun f => f.student_id == sid))).map feeDict)
    ∈ (rowListEntries (get_student_report none db sid).fst).map Prod.snd

/-- Whether the result's `"profile"` entry is a row whose name, grade and
monthly_fee fields are Ada's registration values. -/
def profileEntryIsAda (r : MCPResult) : Bool :=
  match r.find? (fun kv => kv.1 == "profile") with
  | some (_, Entry.row pd) =>
      (pd.find? (fun kv => kv.1 == "name") == some ("name", Value.str "Ada")) &&
      (pd.find? (fun kv => kv.1 == "grade") == some ("grade", Value.str "Grade 9")) &&
      (pd.find? (fun kv => kv.1 == "monthly_fee") == some ("monthly_fee", Value.num 150))
  | _ => false

/-- Following the spec's words (the statement under refutation for C6):
registering Ada ("Ada", "Grade 9", 150.0) in a fresh store and looking up the
returned id yields a profile carrying exactly those three values together
with two list components — an event list and a ledger-entry list — both
empty. -/
def specRoundTripClaim (today : String) : Prop :=
  (add_student none today emptyReadyDB "Ada" "Grade 9" 150).fst = addSuccess 1 ∧
  profileEntryIsAda
      (get_student_report none (add_student none today emptyReadyDB "Ada" "Grade 9" 150).snd 1).fst
    = true ∧
  2 ≤ (rowListEntries
      (get_student_report none (add_student none today emptyReadyDB "Ada" "Grade 9" 150).snd 1).fst).length ∧
  ∀ e ∈ rowListEntries
      (get_student_report none (add_student none today emptyReadyDB "Ada" "Grade 9" 150).snd 1).fst,
    e.2 = []

/-! ### Claim theorems -/

/-- C1: the cascade promised by `delete_student`'s docstring and by the
schema's `ON DELETE CASCADE` does not happen.  At a store holding registrant
Ada (id 1) with one event and one ledger entry, `delete_student 1` reports
success ("Student Ada and all records deleted.") and removes Ada's row, but
both child rows survive as orphans: `PRAGMA foreign_keys = ON` is
per-connection, only `init_db`'s own connection issues it, and the tool's
aiosqlite connection runs with enforcement off, so `ON DELETE CASCADE` never
fires. -/
theorem delete_student_leaves_orphans_C1 :
    delete_student none dbAda 1
      = (msgSuccess "Student Ada and all records deleted.",
         { dbAda with students := some [] }) ∧
    dbAda.test_results = some [adaTest] ∧ dbAda.fee_records = some [adaFee] := by
  refine ⟨?_, rfl, rfl⟩
  rfl

/-- C3: every tool converts a storage-layer fault raised during the
operation into the structured `{"status": "error", "message": str(e)}`
result, leaving the store unchanged and never propagating the exception,
while `init_db` alone re-raises it. -/
theorem storage_fault_policy_C3 (e : String) (db : DB) (today : String)
    (now : Date) (name grade topic : String) (fee marks total : ℚ)
    (sid : Int) (date : Option String) :
    add_student (some e) today db name grade fee = (errorResult e, db) ∧
    delete_student (some e) db sid = (errorResult e, db) ∧
    record_test_score (some e) now db sid topic marks total date = (errorResult e, db) ∧
    get_student_report (some e) db sid = (errorResult e, db) ∧
    init_db (some e) db = Except.error e :=
  ⟨rfl, rfl, rfl, rfl, rfl⟩

/-- C5: for an id with no row in `students`, `get_student_report` and
`delete_student` both return their not-found error result and leave the
store unchanged. -/
theorem never_inserted_not_found_C5 (db : DB) (sid : Int)
    (ss : List StudentRow) (hs : db.students = some ss)
    (habs : ss.all (fun r => !(r.id == sid)) = true) :
    get_student_report none db sid = (errorResult "Student not found", db) ∧
    delete_student none db sid
      = (errorResult ("Student ID " ++ toString sid ++ " not found."), db) := by
  have hfind : ss.find? (fun r => r.id == sid) = none := by
    rw [List.find?_eq_none]
    intro x hx
    have hx' := List.all_eq_true.mp habs x hx
    simpa using hx'
  constructor
  · simp [get_student_report, tryTool, connectE, getTable, hs, hfind, Bind.bind, Except.bind]
  · simp [delete_student, tryTool, connectE, getTable, hs, hfind, Bind.bind, Except.bind]

/-- C5 witness: id 42 was never inserted into `dbAda`. -/
theorem never_inserted_not_found_C5_witness :
    get_student_report none dbAda 42 = (errorResult "Student not found", dbAda) ∧
    delete_student none dbAda 42
      = (errorResult ("Student ID " ++ toString (42 : Int) ++ " not found."), dbAda) :=
  never_inserted_not_found_C5 dbAda 42 [adaRow] rfl (by decide)

/-- C10: `add_student` performs no validation: any name and grade strings
(empty included) and any monthly fee (negative included) produce an insert
and a success result carrying the generated id, never a validation error. -/
theorem add_student_no_validation_C10 (db : DB) (ss : List StudentRow)
    (today name grade : String) (fee : ℚ) (hs : db.students = some ss) :
    add_student none today db name grade fee
      = (addSuccess db.nextStudentId,
         { db with
           students := some (ss ++ [⟨db.nextStudentId, name, grade, fee, today⟩]),
           nextStudentId := db.nextStudentId + 1 }) := by
  simp [add_student, tryTool, connectE, getTable, hs, Bind.bind, Except.bind]

/-- C10 witness: empty name, empty grade and a negative fee are accepted. -/
theorem add_student_no_validation_C10_witness :
    add_student none "2026-10-12" emptyReadyDB "" "" (-5)
      = (addSuccess 1,
         { emptyReadyDB with
           students := some [⟨1, "", "", -5, "2026-10-12"⟩],
           nextStudentId := 2 }) := by
  have h := add_student_no_validation_C10 emptyReadyDB [] "2026-10-12" "" "" (-5) rfl
  simpa [emptyReadyDB] using h

/-- Re-running the three `CREATE TABLE IF NOT EXISTS` statements on an
already-initialized store changes nothing. -/
theorem createTables_createTables (db : DB) :
    createTables (createTables db) = createTables db := by
  simp [createTables]

/-- One more `init_db` round peels off as a `createTables` step. -/
theorem init_times_succ (n : Nat) (db : DB) :
    init_times (n + 1) db = init_times n (createTables db) := rfl

/-- Any number of further `init_db` rounds after the first is a no-op. -/
theorem init_times_fixed (n : Nat) (db : DB) :
    init_times n (createTables db) = Except.ok (createTables db) := by
  induction n generalizing db with
  | zero => rfl
  | succ m ih =>
      rw [init_times_succ, createTables_createTables]
      exact ih db

/-- C4: schema initialization is idempotent.  Calling `init_db` `n ≥ 1`
times yields the same store (same three tables, same rows) as calling it
once, and when the three tables already exist, re-invoking it returns the
store exactly as it was — no data is lost. -/
theorem init_db_idempotent_C4 (db : DB) (n : Nat) (h : 1 ≤ n) :
    init_times n db = init_times 1 db ∧
    (∀ ss ts fs, db.students = some ss → db.test_results = some ts →
       db.fee_records = some fs → init_times n db = Except.ok db) := by
  obtain ⟨m, rfl⟩ : ∃ m, n = m + 1 := ⟨n - 1, by omega⟩
  have h1 : init_times (m + 1) db = Except.ok (createTables db) := by
    rw [init_times_succ]
    exact init_times_fixed m db
  have h2 : init_times 1 db = Except.ok (createTables db) := by
    rw [init_times_succ]
    exact init_times_fixed 0 db
  refine ⟨by rw [h1, h2], ?_⟩
  intro ss ts fs hs ht hf
  rw [h1]
  cases db
  simp_all [createTables]

/-- C4 witness: three rounds of `init_db` on a populated store equal one
round and return the store unchanged. -/
theorem init_db_idempotent_C4_witness :
    init_times 3 dbAda = init_times 1 dbAda ∧ init_times 3 dbAda = Except.ok dbAda :=
  ⟨(init_db_idempotent_C4 dbAda 3 (by decide)).1,
   (init_db_idempotent_C4 dbAda 3 (by decide)).2 [adaRow] [adaTest] [adaFee] rfl rfl rfl⟩

/-- C2 counterexample: at a store where Ada (id 1) has two events inserted
in ascending date order and one ledger entry, `get_student_report 1` returns
neither the events sorted by date descending nor any ledger-entry list, so
the claimed response shape fails at this input. -/
theorem report_not_spec_shaped_C2 : ¬ specDetailClaimAt dbC2 1 := by
  unfold specDetailClaimAt
  decide

/-- C2 (amended): for a present id, `get_student_report` returns the profile
together with the registrant's events in table (insertion) order ascending —
not sorted by date descending — and no ledger entries at all; for an absent
id it returns the "Student not found" error result. -/
theorem get_student_report_amended_C2 (db : DB) (sid : Int)
    (ss : List StudentRow) (ts : List TestRow)
    (hs : db.students = some ss) (ht : db.test_results = some ts) :
    (∀ p, ss.find? (fun r => r.id == sid) = some p →
        get_student_report none db sid
          = (reportResult p (ts.filter (fun t => t.student_id == sid)), db)) ∧
    (ss.find? (fun r => r.id == sid) = none →
        get_student_report none db sid = (errorResult "Student not found", db)) := by
  constructor
  · intro p hp
    simp [get_student_report, tryTool, connectE, getTable, hs, ht, hp, Bind.bind, Except.bind]
  · intro hp
    simp [get_student_report, tryTool, connectE, getTable, hs, hp, Bind.bind, Except.bind]

/-- C2 witness: Ada's report at `dbC2` carries her two events in insertion
order and leaves the store unchanged. -/
theorem get_student_report_amended_C2_witness :
    get_student_report none dbC2 1 = (reportResult adaRow [c2Test1, c2Test2], dbC2) := by
  have h := (get_student_report_amended_C2 dbC2 1 [adaRow] [c2Test1, c2Test2] rfl rfl).1
    adaRow (by decide)
  rw [h]
  decide

/-- C6 counterexample: registering Ada in a fresh store and looking the id
up yields a result with exactly one list-valued component (the event list);
the claimed second, ledger-entry list is absent, so the round-trip claim as
stated fails. -/
theorem round_trip_no_ledger_list_C6 : ¬ specRoundTripClaim "2026-10-12" := by
  unfold specRoundTripClaim
  decide

/-- C6 (amended): registering Ada ("Ada", "Grade 9", 150.0) in a fresh store
returns id 1, and looking id 1 up yields her profile row (exactly those
three values, plus the generated id and joined date) and an empty event
list; the report carries no ledger-entry list at all. -/
theorem round_trip_ada_C6 :
    (add_student none "2026-10-12" emptyReadyDB "Ada" "Grade 9" 150).fst = addSuccess 1 ∧
    get_student_report none
        (add_student none "2026-10-12" emptyReadyDB "Ada" "Grade 9" 150).snd 1
      = (reportResult ⟨1, "Ada", "Grade 9", 150, "2026-10-12"⟩ [],
         (add_student none "2026-10-12" emptyReadyDB "Ada" "Grade 9" 150).snd) ∧
    rowListEntries (get_student_report none
        (add_student none "2026-10-12" emptyReadyDB "Ada" "Grade 9" 150).snd 1).fst
      = [("academic_history", [])] := by
  decide

/-- C7 (spec-modelled): `aggregate_stats` returns the full-table registrant
count and the sum of all ledger amounts; with zero ledger rows the total is
0.0 (a number, not null or absent), and after inserting ledger entries of
100.0, 250.5 and 49.5 for any registrants it is exactly 400.0. -/
theorem aggregate_stats_C7 (db : DB) (ss : List StudentRow) (now : Date)
    (sid1 sid2 sid3 : Int) (p1 p2 p3 : String)
    (hs : db.students = some ss) (hf : db.fee_records = some []) :
    aggregate_stats none db
      = ([("registrant_count", Entry.val (Value.int ss.length)),
          ("total_ledger_amount", Entry.val (Value.num 0))], db) ∧
    (aggregate_stats none
        (record_ledger_entry none now
          (record_ledger_entry none now
            (record_ledger_entry none now db sid1 100 p1 none).snd
            sid2 250.5 p2 none).snd
          sid3 49.5 p3 none).snd).fst
      = [("registrant_count", Entry.val (Value.int ss.length)),
         ("total_ledger_amount", Entry.val (Value.num 400))] := by
  constructor
  · simp [aggregate_stats, tryTool, connectE, getTable, hs, hf, Bind.bind, Except.bind]
  · simp [aggregate_stats, record_ledger_entry, tryTool, connectE, getTable, hs, hf,
      Bind.bind, Except.bind]
    norm_num

/-- C7 witness: a fresh empty store has total 0.0, and the three inserts
make it 400.0. -/
theorem aggregate_stats_C7_witness :
    aggregate_stats none emptyReadyDB
      = ([("registrant_count", Entry.val (Value.int 0)),
          ("total_ledger_amount", Entry.val (Value.num 0))], emptyReadyDB) ∧
    (aggregate_stats none
        (record_ledger_entry none ⟨2026, 10, 12⟩
          (record_ledger_entry none ⟨2026, 10, 12⟩
            (record_ledger_entry none ⟨2026, 10, 12⟩ emptyReadyDB 1 100 "January" none).snd
            1 250.5 "February" none).snd
          2 49.5 "March" none).snd).fst
      = [("registrant_count", Entry.val (Value.int 0)),
         ("total_ledger_amount", Entry.val (Value.num 400))] :=
  aggregate_stats_C7 emptyReadyDB [] ⟨2026, 10, 12⟩ 1 1 2 "January" "February" "March" rfl rfl

/-- C8: `record_test_score` does not verify the registrant exists on its
default connection (foreign-key enforcement off): for an absent registrant
it still inserts the orphan row and reports success.  On a connection with
foreign-key enforcement on, the same insert fails with SQLite's FOREIGN KEY
constraint error, delivered as the structured error result, and no row is
inserted. -/
theorem record_event_fk_C8 (db : DB) (ss : List StudentRow) (ts : List TestRow)
    (now : Date) (sid : Int) (topic : String) (marks total : ℚ)
    (date : Option String) (hs : db.students = some ss)
    (ht : db.test_results = some ts)
    (habs : ss.all (fun r => !(r.id == sid)) = true) :
    record_test_score none now db sid topic marks total date
      = (msgSuccess ("Recorded score for " ++ topic ++ "."),
         { db with
           test_results := some (ts ++ [⟨db.nextTestId, sid, pyDateDefault date now, topic, marks, total⟩]),
           nextTestId := db.nextTestId + 1 }) ∧
    record_test_score_with_fk true none now db sid topic marks total date
      = (errorResult "FOREIGN KEY constraint failed", db) := by
  constructor
  · simp [record_test_score, record_test_score_with_fk, tryTool, connectE, getTable, ht,
      Bind.bind, Except.bind]
  · simp [record_test_score_with_fk, tryTool, connectE, getTable, hs, ht, habs,
      Bind.bind, Except.bind]

/-- C8 witness: registrant 99 does not exist in `dbAda`; the default
connection inserts the orphan event, the enforcing connection refuses it. -/
theorem record_event_fk_C8_witness :
    record_test_score none ⟨2026, 10, 12⟩ dbAda 99 "Algebra" 8 10 (some "2026-03-01")
      = (msgSuccess "Recorded score for Algebra.",
         { dbAda with
           test_results := some [adaTest, ⟨2, 99, "2026-03-01", "Algebra", 8, 10⟩],
           nextTestId := 3 }) ∧
    record_test_score_with_fk true none ⟨2026, 10, 12⟩ dbAda 99 "Algebra" 8 10 (some "2026-03-01")
      = (errorResult "FOREIGN KEY constraint failed", dbAda) := by
  have h := record_event_fk_C8 dbAda [adaRow] [adaTest] ⟨2026, 10, 12⟩ 99 "Algebra" 8 10
    (some "2026-03-01") rfl rfl (by decide)
  exact ⟨by rw [h.1]; decide, h.2⟩

/-- Every character produced by `digitChar10` is a decimal digit. -/
theorem digitChar10_isDigit (n : Nat) : (digitChar10 n).isDigit = true := by
  unfold digitChar10
  split_ifs <;> decide

/-- C9: `record_test_score` called without a date argument stores
`datetime.now().strftime("%Y-%m-%d")` as the event date, and that string has
the ISO `YYYY-MM-DD` shape. -/
theorem record_event_default_date_C9 (db : DB) (ts : List TestRow)
    (now : Date) (sid : Int) (topic : String) (marks total : ℚ)
    (ht : db.test_results = some ts) :
    record_test_score none now db sid topic marks total none
      = (msgSuccess ("Recorded score for " ++ topic ++ "."),
         { db with
           test_results := some (ts ++ [⟨db.nextTestId, sid, strftimeYmd now, topic, marks, total⟩]),
           nextTestId := db.nextTestId + 1 }) ∧
    isIsoDate (strftimeYmd now) = true := by
  constructor
  · simp [record_test_score, record_test_score_with_fk, pyDateDefault, tryTool, connectE,
      getTable, ht, Bind.bind, Except.bind]
  · simp [isIsoDate, strftimeYmd, strftimeYmdChars, isoDateChars, digitChar10_isDigit]

/-- C9 witness: with no date argument on 2026-10-12, the stored date is
"2026-10-12". -/
theorem record_event_default_date_C9_witness :
    record_test_score none ⟨2026, 10, 12⟩ dbAda 1 "Calculus" 9 10 none
      = (msgSuccess "Recorded score for Calculus.",
         { dbAda with
           test_results := some [adaTest, ⟨2, 1, "2026-10-12", "Calculus", 9, 10⟩],
           nextTestId := 3 }) ∧
    isIsoDate (strftimeYmd ⟨2026, 10, 12⟩) = true := by
  have h := record_event_default_date_C9 dbAda [adaTest] ⟨2026, 10, 12⟩ 1 "Calculus" 9 10 rfl
  exact ⟨by rw [h.1]; decide, h.2⟩
